import Mathlib

/-!
Shallow embedding of `crates/biome_js_syntax/src/import_ext.rs`: the accessors
resolving the module source of static `import` declarations, dynamic
`import(...)` calls and CommonJS `require(...)` calls.

The syntax-tree library (biome_rowan) and the generated node accessors are
external collaborators; they are embedded at their interface: node slots are
`Option` fields, generated required-child accessors turn a missing slot into
`SyntaxError.MissingRequiredChild`, and tokens carry trivia and trimmed text
separately.
-/

set_option autoImplicit false

/-- A syntax token: leading trivia, the trimmed token text, trailing trivia.
The trimmed text of a string-literal token includes its quote delimiters. -/
structure JsSyntaxToken where
  leading : String
  trimmed : String
  trailing : String
  deriving DecidableEq, Repr

/-- A text slice borrowed from a token; embedded as a plain string. -/
abbrev TokenText := String

/-- Trimmed text of a token (trivia excluded). -/
def JsSyntaxToken.text_trimmed (t : JsSyntaxToken) : String :=
  t.trimmed

/-- Full text of a token, trivia included. -/
def JsSyntaxToken.text (t : JsSyntaxToken) : String :=
  t.leading ++ t.trimmed ++ t.trailing

/-- Modelled from the spec: the crate-level `inner_string_text` helper is not
part of the excerpt. Per the spec, given a string-literal token it returns the
inner text with the first and last characters (the quote delimiters) stripped
and trivia excluded; escape sequences are left verbatim. -/
def inner_string_text (tok : JsSyntaxToken) : TokenText :=
  String.mk ((tok.trimmed.data.drop 1).dropLast)

/-- Alias for the crate-level helper, usable inside namespaced methods that
share its name. -/
def inner_string_text_of (tok : JsSyntaxToken) : TokenText :=
  inner_string_text tok

/-- The error kinds of biome_rowan's SyntaxError. -/
inductive SyntaxError where
  | MissingRequiredChild
  | UnexpectedMetavariable
  deriving DecidableEq, Repr

/-- Result type of fallible tree accessors. -/
abbrev SyntaxResult (α : Type) := Except SyntaxError α

/-- Generated required-child accessor: a missing slot is a tree-access error. -/
def required {α : Type} : Option α → SyntaxResult α
  | some a => Except.ok a
  | none => Except.error SyntaxError.MissingRequiredChild

/-- Node kinds relevant to this subsystem; OTHER_KIND stands for every kind
this subsystem never inspects specially. -/
inductive JsSyntaxKind where
  | JS_IMPORT_BARE_CLAUSE
  | JS_IMPORT_DEFAULT_CLAUSE
  | JS_IMPORT_NAMED_CLAUSE
  | JS_IMPORT_NAMESPACE_CLAUSE
  | JS_IMPORT_COMBINED_CLAUSE
  | TS_EXTERNAL_MODULE_DECLARATION
  | JS_NAMED_IMPORT_SPECIFIERS
  | JS_NAMED_IMPORT_SPECIFIER_LIST
  | JS_IMPORT
  | OTHER_KIND
  deriving DecidableEq, Repr

/-- A binding introduced by an import specifier. -/
inductive AnyJsBinding where
  | JsIdentifierBinding (name_token? : Option JsSyntaxToken)
  | JsBogusBinding
  deriving DecidableEq, Repr

/-- Narrowing of a binding to an identifier binding. -/
def AnyJsBinding.as_js_identifier_binding : AnyJsBinding → Option AnyJsBinding
  | b@(AnyJsBinding.JsIdentifierBinding _) => some b
  | AnyJsBinding.JsBogusBinding => none

/-- Name token of an identifier binding (generated required-child accessor). -/
def AnyJsBinding.name_token : AnyJsBinding → SyntaxResult JsSyntaxToken
  | AnyJsBinding.JsIdentifierBinding t => required t
  | AnyJsBinding.JsBogusBinding => Except.error SyntaxError.MissingRequiredChild

/-- A module source node: a string-literal token wrapped as a dedicated node. -/
structure JsModuleSource where
  value_token? : Option JsSyntaxToken
  deriving DecidableEq, Repr

/-- Value token of a module source (generated required-child accessor). -/
def JsModuleSource.value_token (s : JsModuleSource) : SyntaxResult JsSyntaxToken :=
  required s.value_token?

/-- JsModuleSource::inner_string_text from import_ext.rs: inner text of the
string, not including the quotes. -/
def JsModuleSource.inner_string_text (s : JsModuleSource) : SyntaxResult TokenText :=
  (s.value_token).map inner_string_text_of

/-- A metavariable placeholder node used by template and macro tooling. -/
structure JsMetavariable where
  value_token? : Option JsSyntaxToken
  deriving DecidableEq, Repr

/-- A module-source slot: a concrete module source or a metavariable. -/
inductive AnyJsModuleSource where
  | JsModuleSource (s : JsModuleSource)
  | JsMetavariable (m : JsMetavariable)
  deriving DecidableEq, Repr

/-- An import assertion, e.g. with { type: "json" }; its inner structure is
irrelevant to this subsystem and kept opaque. -/
structure JsImportAssertion where
  items_text : String
  deriving DecidableEq, Repr

/-- A named import specifier: { a as b }, with an optional type marker. -/
structure JsNamedImportSpecifier where
  type_token? : Option JsSyntaxToken
  name? : Option JsSyntaxToken
  local_name? : Option AnyJsBinding
  deriving DecidableEq, Repr

/-- A shorthand named import specifier: { a }, with an optional type marker. -/
structure JsShorthandNamedImportSpecifier where
  type_token? : Option JsSyntaxToken
  local_name? : Option AnyJsBinding
  deriving DecidableEq, Repr

/-- An error-tolerant bogus named import specifier; its recovered contents are
opaque to this subsystem. -/
structure JsBogusNamedImportSpecifier where
  recovered_text : String
  deriving DecidableEq, Repr

/-- The closed variant set of named import specifiers. -/
inductive AnyJsNamedImportSpecifier where
  | JsBogusNamedImportSpecifier (s : JsBogusNamedImportSpecifier)
  | JsNamedImportSpecifier (s : JsNamedImportSpecifier)
  | JsShorthandNamedImportSpecifier (s : JsShorthandNamedImportSpecifier)
  deriving DecidableEq, Repr

/-- AnyJsNamedImportSpecifier::type_token from import_ext.rs. -/
def AnyJsNamedImportSpecifier.type_token : AnyJsNamedImportSpecifier → Option JsSyntaxToken
  | AnyJsNamedImportSpecifier.JsBogusNamedImportSpecifier _ => none
  | AnyJsNamedImportSpecifier.JsNamedImportSpecifier s => s.type_token?
  | AnyJsNamedImportSpecifier.JsShorthandNamedImportSpecifier s => s.type_token?

/-- AnyJsNamedImportSpecifier::local_name from import_ext.rs. -/
def AnyJsNamedImportSpecifier.local_name : AnyJsNamedImportSpecifier → Option AnyJsBinding
  | AnyJsNamedImportSpecifier.JsBogusNamedImportSpecifier _ => none
  | AnyJsNamedImportSpecifier.JsNamedImportSpecifier s => (required s.local_name?).toOption
  | AnyJsNamedImportSpecifier.JsShorthandNamedImportSpecifier s => (required s.local_name?).toOption

/-- AnyJsNamedImportSpecifier::imported_name from import_ext.rs. -/
def AnyJsNamedImportSpecifier.imported_name (s : AnyJsNamedImportSpecifier) : Option JsSyntaxToken :=
  match s with
  | AnyJsNamedImportSpecifier.JsNamedImportSpecifier _
  | AnyJsNamedImportSpecifier.JsShorthandNamedImportSpecifier _ =>
    (s.local_name).bind fun lb =>
      (lb.as_js_identifier_binding).bind fun b => (b.name_token).toOption
  | AnyJsNamedImportSpecifier.JsBogusNamedImportSpecifier _ => none

/-- AnyJsNamedImportSpecifier::with_type_token from import_ext.rs: a pure
copy-with-replaced-marker transform; Bogus is returned unchanged. -/
def AnyJsNamedImportSpecifier.with_type_token
    (s : AnyJsNamedImportSpecifier) (type_token : Option JsSyntaxToken) :
    AnyJsNamedImportSpecifier :=
  match s with
  | AnyJsNamedImportSpecifier.JsBogusNamedImportSpecifier _ => s
  | AnyJsNamedImportSpecifier.JsNamedImportSpecifier sp =>
    AnyJsNamedImportSpecifier.JsNamedImportSpecifier { sp with type_token? := type_token }
  | AnyJsNamedImportSpecifier.JsShorthandNamedImportSpecifier sp =>
    AnyJsNamedImportSpecifier.JsShorthandNamedImportSpecifier { sp with type_token? := type_token }

/-- The braces wrapper holding the list of named import specifiers. -/
structure JsNamedImportSpecifiers where
  specifiers : List AnyJsNamedImportSpecifier
  deriving DecidableEq, Repr

/-- A default import specifier binding the default export locally. -/
structure JsDefaultImportSpecifier where
  local_name? : Option AnyJsBinding
  deriving DecidableEq, Repr

/-- A namespace import specifier: * as ns. -/
structure JsNamespaceImportSpecifier where
  local_name? : Option AnyJsBinding
  deriving DecidableEq, Repr

/-- Bare import clause: import "source" (with optional assertion). -/
structure JsImportBareClause where
  source? : Option AnyJsModuleSource
  assertion? : Option JsImportAssertion
  deriving DecidableEq, Repr

/-- Default import clause: import d from "source". -/
structure JsImportDefaultClause where
  type_token? : Option JsSyntaxToken
  default_specifier? : Option JsDefaultImportSpecifier
  source? : Option AnyJsModuleSource
  assertion? : Option JsImportAssertion
  deriving DecidableEq, Repr

/-- Named import clause: import { a, b } from "source". -/
structure JsImportNamedClause where
  type_token? : Option JsSyntaxToken
  named_specifiers? : Option JsNamedImportSpecifiers
  source? : Option AnyJsModuleSource
  assertion? : Option JsImportAssertion
  deriving DecidableEq, Repr

/-- Namespace import clause: import * as ns from "source". -/
structure JsImportNamespaceClause where
  type_token? : Option JsSyntaxToken
  namespace_specifier? : Option JsNamespaceImportSpecifier
  source? : Option AnyJsModuleSource
  assertion? : Option JsImportAssertion
  deriving DecidableEq, Repr

/-- Combined import clause: import d, { a } from "source"; it carries its own
source and assertion slots and no direct type marker. -/
structure JsImportCombinedClause where
  default_specifier? : Option JsDefaultImportSpecifier
  named_specifiers? : Option JsNamedImportSpecifiers
  source? : Option AnyJsModuleSource
  assertion? : Option JsImportAssertion
  deriving DecidableEq, Repr

/-- The closed variant set of import clauses. -/
inductive AnyJsImportClause where
  | JsImportBareClause (c : JsImportBareClause)
  | JsImportDefaultClause (c : JsImportDefaultClause)
  | JsImportNamedClause (c : JsImportNamedClause)
  | JsImportNamespaceClause (c : JsImportNamespaceClause)
  | JsImportCombinedClause (c : JsImportCombinedClause)
  deriving DecidableEq, Repr

/-- Node kind of an import clause. -/
def AnyJsImportClause.kind : AnyJsImportClause → JsSyntaxKind
  | AnyJsImportClause.JsImportBareClause _ => JsSyntaxKind.JS_IMPORT_BARE_CLAUSE
  | AnyJsImportClause.JsImportDefaultClause _ => JsSyntaxKind.JS_IMPORT_DEFAULT_CLAUSE
  | AnyJsImportClause.JsImportNamedClause _ => JsSyntaxKind.JS_IMPORT_NAMED_CLAUSE
  | AnyJsImportClause.JsImportNamespaceClause _ => JsSyntaxKind.JS_IMPORT_NAMESPACE_CLAUSE
  | AnyJsImportClause.JsImportCombinedClause _ => JsSyntaxKind.JS_IMPORT_COMBINED_CLAUSE

/-- AnyJsImportClause::type_token from import_ext.rs: Bare and Combined have
no direct type-marker slot and yield absence. -/
def AnyJsImportClause.type_token : AnyJsImportClause → Option JsSyntaxToken
  | AnyJsImportClause.JsImportBareClause _ => none
  | AnyJsImportClause.JsImportDefaultClause c => c.type_token?
  | AnyJsImportClause.JsImportNamedClause c => c.type_token?
  | AnyJsImportClause.JsImportNamespaceClause c => c.type_token?
  | AnyJsImportClause.JsImportCombinedClause _ => none

/-- The per-variant source slot of a clause (each variant's own generated
source accessor reads this slot as a required child). -/
def AnyJsImportClause.source_slot : AnyJsImportClause → Option AnyJsModuleSource
  | AnyJsImportClause.JsImportBareClause c => c.source?
  | AnyJsImportClause.JsImportDefaultClause c => c.source?
  | AnyJsImportClause.JsImportNamedClause c => c.source?
  | AnyJsImportClause.JsImportNamespaceClause c => c.source?
  | AnyJsImportClause.JsImportCombinedClause c => c.source?

/-- AnyJsImportClause::source from import_ext.rs: dispatches to the variant's
own source slot, then rejects a metavariable placeholder with the dedicated
UnexpectedMetavariable error. -/
def AnyJsImportClause.source (c : AnyJsImportClause) : SyntaxResult JsModuleSource :=
  (required c.source_slot).bind fun src =>
    match src with
    | AnyJsModuleSource.JsModuleSource s => Except.ok s
    | AnyJsModuleSource.JsMetavariable _ => Except.error SyntaxError.UnexpectedMetavariable

/-- AnyJsImportClause::assertion from import_ext.rs: dispatches to the
variant's own optional assertion slot. -/
def AnyJsImportClause.assertion : AnyJsImportClause → Option JsImportAssertion
  | AnyJsImportClause.JsImportBareClause c => c.assertion?
  | AnyJsImportClause.JsImportDefaultClause c => c.assertion?
  | AnyJsImportClause.JsImportNamedClause c => c.assertion?
  | AnyJsImportClause.JsImportNamespaceClause c => c.assertion?
  | AnyJsImportClause.JsImportCombinedClause c => c.assertion?

/-- A static import declaration: import clause-and-source. -/
structure JsImport where
  import_clause? : Option AnyJsImportClause
  deriving DecidableEq, Repr

/-- Import clause of the declaration (generated required-child accessor). -/
def JsImport.import_clause (i : JsImport) : SyntaxResult AnyJsImportClause :=
  required i.import_clause?

/-- JsImport::source_text from import_ext.rs: clause, then source, then inner
string text. -/
def JsImport.source_text (i : JsImport) : SyntaxResult TokenText := do
  let clause ← i.import_clause
  let src ← clause.source
  src.inner_string_text

/-- JsImport::source_token from import_ext.rs: clause, then source, then the
raw value token with quotes. -/
def JsImport.source_token (i : JsImport) : SyntaxResult JsSyntaxToken := do
  let clause ← i.import_clause
  let src ← clause.source
  src.value_token

/-- A reference identifier expression's inner reference: holds the name token. -/
structure JsReferenceIdentifier where
  value_token? : Option JsSyntaxToken
  deriving DecidableEq, Repr

/-- Value token of a reference identifier (generated required-child accessor). -/
def JsReferenceIdentifier.value_token (r : JsReferenceIdentifier) : SyntaxResult JsSyntaxToken :=
  required r.value_token?

/-- A string literal expression wrapping a string-literal token. -/
structure JsStringLiteralExpression where
  value_token? : Option JsSyntaxToken
  deriving DecidableEq, Repr

/-- Value token of a string literal expression (generated accessor). -/
def JsStringLiteralExpression.value_token (e : JsStringLiteralExpression) :
    SyntaxResult JsSyntaxToken :=
  required e.value_token?

/-- Modelled from the spec: JsStringLiteralExpression::inner_string_text is an
external accessor (not in the excerpt) returning the inner text of the string
literal with quotes stripped; it fails only if the token cannot be retrieved. -/
def JsStringLiteralExpression.inner_string_text (e : JsStringLiteralExpression) :
    SyntaxResult TokenText :=
  (e.value_token).map inner_string_text_of

/-- The closed variant set of literal expressions; only the string variant is
consulted by this subsystem. -/
inductive AnyJsLiteralExpression where
  | JsStringLiteralExpression (e : JsStringLiteralExpression)
  | JsNumberLiteralExpression (value_token? : Option JsSyntaxToken)
  | OtherLiteralExpression
  deriving DecidableEq, Repr

/-- Alias usable inside namespaces whose constructors shadow the type name. -/
abbrev StringLiteralExpressionTy := JsStringLiteralExpression

/-- Narrowing of a literal expression to a string literal expression. -/
def AnyJsLiteralExpression.as_js_string_literal_expression :
    AnyJsLiteralExpression → Option StringLiteralExpressionTy
  | AnyJsLiteralExpression.JsStringLiteralExpression e => some e
  | _ => none

/-- The expression shapes this subsystem distinguishes: identifier
expressions (whose inner reference may be missing), literal expressions, and
every other expression shape. -/
inductive AnyJsExpression where
  | JsIdentifierExpression (name? : Option JsReferenceIdentifier)
  | AnyJsLiteralExpression (e : AnyJsLiteralExpression)
  | OtherExpression
  deriving DecidableEq, Repr

/-- Modelled from the spec: AnyJsExpression::as_js_reference_identifier is an
external accessor (not in the excerpt) narrowing an expression to a plain
reference identifier: it succeeds exactly on an identifier expression whose
inner reference is present. -/
def AnyJsExpression.as_js_reference_identifier :
    AnyJsExpression → Option JsReferenceIdentifier
  | AnyJsExpression.JsIdentifierExpression n => n
  | _ => none

/-- Alias usable inside namespaces whose constructors shadow the type name. -/
abbrev AnyLiteralExpressionTy := AnyJsLiteralExpression

/-- Narrowing of an expression to a literal expression. -/
def AnyJsExpression.as_any_js_literal_expression :
    AnyJsExpression → Option AnyLiteralExpressionTy
  | AnyJsExpression.AnyJsLiteralExpression e => some e
  | _ => none

/-- A call argument: a plain expression or a spread element. -/
inductive AnyJsCallArgument where
  | AnyJsExpression (e : AnyJsExpression)
  | JsSpread
  deriving DecidableEq, Repr

/-- Alias usable inside namespaces whose constructors shadow the type name. -/
abbrev AnyExpressionTy := AnyJsExpression

/-- Narrowing of a call argument to a plain expression. -/
def AnyJsCallArgument.as_any_js_expression : AnyJsCallArgument → Option AnyExpressionTy
  | AnyJsCallArgument.AnyJsExpression e => some e
  | AnyJsCallArgument.JsSpread => none

/-- The parenthesized argument list of a call. -/
structure JsCallArguments where
  args : List AnyJsCallArgument
  deriving DecidableEq, Repr

/-- Modelled from the spec: indexed, possibly-absent positional argument
lookup (get_arguments_by_index, not in the excerpt): requesting argument N
yields absence rather than an error when fewer than N+1 arguments exist. -/
def JsCallArguments.get_argument_by_index (a : JsCallArguments) (i : Nat) :
    Option AnyJsCallArgument :=
  a.args.get? i

/-- A call expression: callee(arguments). -/
structure JsCallExpression where
  callee? : Option AnyJsExpression
  arguments? : Option JsCallArguments
  deriving DecidableEq, Repr

/-- Callee of a call expression (generated required-child accessor). -/
def JsCallExpression.callee (c : JsCallExpression) : SyntaxResult AnyJsExpression :=
  required c.callee?

/-- Arguments of a call expression (generated required-child accessor). -/
def JsCallExpression.arguments (c : JsCallExpression) : SyntaxResult JsCallArguments :=
  required c.arguments?

/-- JsCallExpression::is_require_call_expression from import_ext.rs: true iff
the callee narrows to a reference identifier whose trimmed text is
"require"; every resolution failure yields false. -/
def JsCallExpression.is_require_call_expression (c : JsCallExpression) : Bool :=
  ((((c.callee).toOption).bind fun callee =>
      (callee.as_js_reference_identifier).bind fun r => (r.value_token).toOption).map
    fun name => name.text_trimmed == "require").getD false

/-- The argument-extraction chain shared by the require / dynamic-import
accessors: take the argument at index 0, require a plain expression that is a
string literal expression. -/
def argument_zero_string_literal (args : JsCallArguments) :
    Option JsStringLiteralExpression := do
  let argument ← args.get_argument_by_index 0
  let expr ← argument.as_any_js_expression
  let lit ← expr.as_any_js_literal_expression
  lit.as_js_string_literal_expression

/-- JsCallExpression::imported_module_source_text from import_ext.rs. -/
def JsCallExpression.imported_module_source_text (c : JsCallExpression) :
    Option TokenText :=
  if c.is_require_call_expression then do
    let args ← (c.arguments).toOption
    let strLit ← argument_zero_string_literal args
    (strLit.inner_string_text).toOption
  else
    none

/-- JsCallExpression::imported_module_source_token from import_ext.rs. -/
def JsCallExpression.imported_module_source_token (c : JsCallExpression) :
    Option JsSyntaxToken :=
  if c.is_require_call_expression then do
    let args ← (c.arguments).toOption
    let strLit ← argument_zero_string_literal args
    (strLit.value_token).toOption
  else
    none

/-- A dynamic import call expression: import(arguments). -/
structure JsImportCallExpression where
  arguments? : Option JsCallArguments
  deriving DecidableEq, Repr

/-- Arguments of a dynamic import call (generated required-child accessor). -/
def JsImportCallExpression.arguments (e : JsImportCallExpression) :
    SyntaxResult JsCallArguments :=
  required e.arguments?

/-- JsImportCallExpression::module_source_text from import_ext.rs. -/
def JsImportCallExpression.module_source_text (e : JsImportCallExpression) :
    Option TokenText := do
  let args ← (e.arguments).toOption
  let strLit ← argument_zero_string_literal args
  (strLit.inner_string_text).toOption

/-- JsImportCallExpression::module_source_token from import_ext.rs. -/
def JsImportCallExpression.module_source_token (e : JsImportCallExpression) :
    Option JsSyntaxToken := do
  let args ← (e.arguments).toOption
  let strLit ← argument_zero_string_literal args
  (strLit.value_token).toOption

/-- The closed three-variant union AnyJsImportSourceLike from import_ext.rs:
a static module source, a require(...) call, or an import(...) call. -/
inductive AnyJsImportSourceLike where
  | JsModuleSource (s : JsModuleSource)
  | JsCallExpression (e : JsCallExpression)
  | JsImportCallExpression (e : JsImportCallExpression)
  deriving DecidableEq, Repr

/-- AnyJsImportSourceLike::module_source_text from import_ext.rs. -/
def AnyJsImportSourceLike.module_source_text :
    AnyJsImportSourceLike → Option TokenText
  | AnyJsImportSourceLike.JsModuleSource s => (s.inner_string_text).toOption
  | AnyJsImportSourceLike.JsCallExpression e => e.imported_module_source_text
  | AnyJsImportSourceLike.JsImportCallExpression e => e.module_source_text

/-- AnyJsImportSourceLike::module_name_token from import_ext.rs. -/
def AnyJsImportSourceLike.module_name_token :
    AnyJsImportSourceLike → Option JsSyntaxToken
  | AnyJsImportSourceLike.JsModuleSource s => (s.value_token).toOption
  | AnyJsImportSourceLike.JsCallExpression e => e.imported_module_source_token
  | AnyJsImportSourceLike.JsImportCallExpression e => e.module_source_token

/-- A node in an ancestor chain: either an import clause (the one casting
target this subsystem uses) or one of the surrounding node shapes, recorded
by its kind. -/
inductive AncestorNode where
  | importClause (c : AnyJsImportClause)
  | tsExternalModuleDeclaration
  | namedImportSpecifierList
  | namedImportSpecifiers
  | jsImportNode
  | otherNode
  deriving DecidableEq, Repr

/-- Node kind of an ancestor node. -/
def AncestorNode.kind : AncestorNode → JsSyntaxKind
  | AncestorNode.importClause c => c.kind
  | AncestorNode.tsExternalModuleDeclaration => JsSyntaxKind.TS_EXTERNAL_MODULE_DECLARATION
  | AncestorNode.namedImportSpecifierList => JsSyntaxKind.JS_NAMED_IMPORT_SPECIFIER_LIST
  | AncestorNode.namedImportSpecifiers => JsSyntaxKind.JS_NAMED_IMPORT_SPECIFIERS
  | AncestorNode.jsImportNode => JsSyntaxKind.JS_IMPORT
  | AncestorNode.otherNode => JsSyntaxKind.OTHER_KIND

/-- AnyJsImportClause::cast applied to an ancestor node: succeeds exactly on
the import-clause shape. -/
def AncestorNode.cast_import_clause : AncestorNode → Option AnyJsImportClause
  | AncestorNode.importClause c => some c
  | _ => none

/-- A named import specifier together with its position in the tree: the
chain of strict ancestors, nearest parent first. In rowan the ancestors
iterator starts at the node itself, so ancestors().nth(3) is the third strict
ancestor, i.e. the element at index 2 of this strict-ancestor chain. -/
structure SpecifierNode where
  specifier : AnyJsNamedImportSpecifier
  ancestors : List AncestorNode
  deriving DecidableEq, Repr

/-- AnyJsNamedImportSpecifier::import_clause from import_ext.rs: cast the 3rd
ancestor (self counts as ancestor 0) to an import clause. -/
def SpecifierNode.import_clause (n : SpecifierNode) : Option AnyJsImportClause :=
  (n.ancestors.get? 2).bind AncestorNode.cast_import_clause

/-- AnyJsNamedImportSpecifier::imports_only_types from import_ext.rs: own
marker present, or owning clause found and its marker present. -/
def SpecifierNode.imports_only_types (n : SpecifierNode) : Bool :=
  (n.specifier.type_token).isSome
    || ((n.import_clause).bind AnyJsImportClause.type_token).isSome

/-- An AnyJsImportSourceLike value together with its position in the tree:
the chain of strict ancestors, nearest parent first. -/
structure ImportSourceLikeNode where
  value : AnyJsImportSourceLike
  ancestors : List AncestorNode
  deriving DecidableEq, Repr

/-- AnyJsImportSourceLike::is_in_ts_module_declaration from import_ext.rs:
the value is the module-source variant and the immediate parent's kind is
TS_EXTERNAL_MODULE_DECLARATION. -/
def ImportSourceLikeNode.is_in_ts_module_declaration (n : ImportSourceLikeNode) : Bool :=
  (match n.value with
    | AnyJsImportSourceLike.JsModuleSource _ => true
    | _ => false)
  && (match (n.ancestors.head?).map AncestorNode.kind with
    | some k => k == JsSyntaxKind.TS_EXTERNAL_MODULE_DECLARATION
    | none => false)

/-! ## Helper lemmas -/

/-- Rebuilding a string from its character data is the identity. -/
theorem string_mk_data (S : String) : String.mk S.data = S := rfl

/-- Stripping the first and last characters of a quoted body recovers the
body: the helper on a token whose trimmed text is the body S surrounded by a
quote character returns exactly S, for any trivia. -/
theorem inner_string_text_quoted (q : Char) (S lead trail : String) :
    inner_string_text ⟨lead, String.mk (q :: (S.data ++ [q])), trail⟩ = S := by
  show String.mk (((q :: (S.data ++ [q])).drop 1).dropLast) = S
  rw [List.drop_one, List.tail_cons, List.dropLast_concat, string_mk_data]

/-- Binds with pointwise equi-defined success agree on success. -/
theorem isSome_bind_congr {α β γ : Type} (o : Option α) (f : α → Option β) (g : α → Option γ)
    (h : ∀ a, (f a).isSome = (g a).isSome) : (o.bind f).isSome = (o.bind g).isSome := by
  cases o with
  | none => rfl
  | some a => simpa using h a

/-! ## Claim theorems -/

/-- C1: for every static import declaration whose module source is a concrete
string literal with body S (surrounded by a quote character q, with arbitrary
trivia), source_text returns S with the quotes stripped and source_token
returns the raw quoted token, for all five clause shapes: bare, default,
named, namespace and combined. -/
theorem c1_static_import_source_text_and_token
    (S lead trail : String) (q : Char)
    (dsp csp : Option JsDefaultImportSpecifier) (nsp cnsp : Option JsNamedImportSpecifiers)
    (nssp : Option JsNamespaceImportSpecifier)
    (t1 t2 t3 : Option JsSyntaxToken) (a0 a1 a2 a3 a4 : Option JsImportAssertion) :
    let tok : JsSyntaxToken := ⟨lead, String.mk (q :: (S.data ++ [q])), trail⟩
    let src : Option AnyJsModuleSource := some (AnyJsModuleSource.JsModuleSource ⟨some tok⟩)
    let bare := JsImport.mk (some (AnyJsImportClause.JsImportBareClause ⟨src, a0⟩))
    let dflt := JsImport.mk (some (AnyJsImportClause.JsImportDefaultClause ⟨t1, dsp, src, a1⟩))
    let named := JsImport.mk (some (AnyJsImportClause.JsImportNamedClause ⟨t2, nsp, src, a2⟩))
    let nmsp := JsImport.mk (some (AnyJsImportClause.JsImportNamespaceClause ⟨t3, nssp, src, a3⟩))
    let comb := JsImport.mk (some (AnyJsImportClause.JsImportCombinedClause ⟨csp, cnsp, src, a4⟩))
    (bare.source_text = Except.ok S ∧ bare.source_token = Except.ok tok)
    ∧ (dflt.source_text = Except.ok S ∧ dflt.source_token = Except.ok tok)
    ∧ (named.source_text = Except.ok S ∧ named.source_token = Except.ok tok)
    ∧ (nmsp.source_text = Except.ok S ∧ nmsp.source_token = Except.ok tok)
    ∧ (comb.source_text = Except.ok S ∧ comb.source_token = Except.ok tok) := by
  refine ⟨⟨?_, rfl⟩, ⟨?_, rfl⟩, ⟨?_, rfl⟩, ⟨?_, rfl⟩, ⟨?_, rfl⟩⟩ <;>
    exact congrArg Except.ok (inner_string_text_quoted q S lead trail)

/-- C2: a call expression is recognized as a require call iff its callee is
an identifier expression whose present reference identifier carries a value
token of trimmed text "require"; every resolution failure yields false, and
the answer never depends on the call's arguments. -/
theorem c2_is_require_call_expression_iff (c : JsCallExpression) :
    (c.is_require_call_expression = true ↔
      ∃ r tok, c.callee? = some (AnyJsExpression.JsIdentifierExpression (some r))
        ∧ r.value_token? = some tok ∧ tok.text_trimmed = "require")
    ∧ (∀ args?, (JsCallExpression.mk c.callee? args?).is_require_call_expression
        = c.is_require_call_expression) := by
  constructor
  · obtain ⟨callee?, arguments?⟩ := c
    cases callee? with
    | none =>
      simp [JsCallExpression.is_require_call_expression, JsCallExpression.callee, required,
        Except.toOption]
    | some callee =>
      cases callee with
      | JsIdentifierExpression name? =>
        cases name? with
        | none =>
          simp [JsCallExpression.is_require_call_expression, JsCallExpression.callee, required,
            Except.toOption, AnyJsExpression.as_js_reference_identifier]
        | some r =>
          obtain ⟨vt?⟩ := r
          cases vt? with
          | none =>
            simp [JsCallExpression.is_require_call_expression, JsCallExpression.callee, required,
              Except.toOption, AnyJsExpression.as_js_reference_identifier,
              JsReferenceIdentifier.value_token]
          | some tok =>
            simp [JsCallExpression.is_require_call_expression, JsCallExpression.callee, required,
              Except.toOption, AnyJsExpression.as_js_reference_identifier,
              JsReferenceIdentifier.value_token, JsSyntaxToken.text_trimmed]
      | AnyJsLiteralExpression e =>
        simp [JsCallExpression.is_require_call_expression, JsCallExpression.callee, required,
          Except.toOption, AnyJsExpression.as_js_reference_identifier]
      | OtherExpression =>
        simp [JsCallExpression.is_require_call_expression, JsCallExpression.callee, required,
          Except.toOption, AnyJsExpression.as_js_reference_identifier]
  · intro args?
    rfl

/-- C3: the module-source extraction chains consult only the positional
argument at index 0. A call with zero arguments yields absence; a first
argument that does not narrow to a string-literal expression yields absence
rather than an error; and arguments beyond index 0 never change the result,
for both the dynamic import(...) accessors and the require(...) accessors. -/
theorem c3_extraction_consults_only_argument_zero :
    (∀ e : JsImportCallExpression, e.arguments? = some ⟨[]⟩ →
      e.module_source_text = none ∧ e.module_source_token = none)
    ∧ (∀ c : JsCallExpression, c.arguments? = some ⟨[]⟩ →
      c.imported_module_source_text = none ∧ c.imported_module_source_token = none)
    ∧ (∀ (a : AnyJsCallArgument) (rest : List AnyJsCallArgument),
      ((a.as_any_js_expression).bind fun e =>
          (e.as_any_js_literal_expression).bind
            AnyJsLiteralExpression.as_js_string_literal_expression) = none →
      (JsImportCallExpression.mk (some ⟨a :: rest⟩)).module_source_text = none
      ∧ (JsImportCallExpression.mk (some ⟨a :: rest⟩)).module_source_token = none
      ∧ ∀ callee?, (JsCallExpression.mk callee? (some ⟨a :: rest⟩)).imported_module_source_text = none
        ∧ (JsCallExpression.mk callee? (some ⟨a :: rest⟩)).imported_module_source_token = none)
    ∧ (∀ (a : AnyJsCallArgument) (rest : List AnyJsCallArgument),
      (JsImportCallExpression.mk (some ⟨a :: rest⟩)).module_source_text
        = (JsImportCallExpression.mk (some ⟨[a]⟩)).module_source_text
      ∧ (JsImportCallExpression.mk (some ⟨a :: rest⟩)).module_source_token
        = (JsImportCallExpression.mk (some ⟨[a]⟩)).module_source_token
      ∧ ∀ callee?,
        (JsCallExpression.mk callee? (some ⟨a :: rest⟩)).imported_module_source_text
          = (JsCallExpression.mk callee? (some ⟨[a]⟩)).imported_module_source_text
        ∧ (JsCallExpression.mk callee? (some ⟨a :: rest⟩)).imported_module_source_token
          = (JsCallExpression.mk callee? (some ⟨[a]⟩)).imported_module_source_token) := by
  have hnil : argument_zero_string_literal ⟨[]⟩ = none := rfl
  have hcons : ∀ (a : AnyJsCallArgument) (rest : List AnyJsCallArgument),
      argument_zero_string_literal ⟨a :: rest⟩
        = ((a.as_any_js_expression).bind fun e =>
            (e.as_any_js_literal_expression).bind
              AnyJsLiteralExpression.as_js_string_literal_expression) := fun a rest => rfl
  refine ⟨?_, ?_, ?_, ?_⟩
  · rintro ⟨args?⟩ h
    cases h
    exact ⟨rfl, rfl⟩
  · rintro ⟨callee?, args?⟩ h
    cases h
    constructor
    all_goals
      simp only [JsCallExpression.imported_module_source_text,
        JsCallExpression.imported_module_source_token]
      split
      · rfl
      · rfl
  · intro a rest h
    have hh : argument_zero_string_literal ⟨a :: rest⟩ = none := (hcons a rest).trans h
    refine ⟨?_, ?_, ?_⟩
    · simp [JsImportCallExpression.module_source_text, JsImportCallExpression.arguments,
        required, Except.toOption, hh]
    · simp [JsImportCallExpression.module_source_token, JsImportCallExpression.arguments,
        required, Except.toOption, hh]
    · intro callee?
      constructor
      all_goals
        simp only [JsCallExpression.imported_module_source_text,
          JsCallExpression.imported_module_source_token]
        split
        · simp [JsCallExpression.arguments, required, Except.toOption, hh]
        · rfl
  · intro a rest
    have hh : argument_zero_string_literal ⟨a :: rest⟩ = argument_zero_string_literal ⟨[a]⟩ :=
      (hcons a rest).trans (hcons a []).symm
    have hreq : ∀ callee? : Option AnyJsExpression,
        (JsCallExpression.mk callee? (some ⟨a :: rest⟩)).is_require_call_expression
          = (JsCallExpression.mk callee? (some ⟨[a]⟩)).is_require_call_expression :=
      fun _ => rfl
    refine ⟨?_, ?_, ?_⟩
    · simp [JsImportCallExpression.module_source_text, JsImportCallExpression.arguments,
        required, Except.toOption, hh]
    · simp [JsImportCallExpression.module_source_token, JsImportCallExpression.arguments,
        required, Except.toOption, hh]
    · intro callee?
      constructor
      all_goals
        simp only [JsCallExpression.imported_module_source_text,
          JsCallExpression.imported_module_source_token]
        rw [hreq callee?]
        cases hb : (JsCallExpression.mk callee? (some ⟨[a]⟩)).is_require_call_expression
        · simp [hb]
        · simp [hb, JsCallExpression.arguments, required, Except.toOption, hh]

/-- C4: a named import specifier in context imports only types exactly when
its own type marker is present or its owning clause is found (by the
fixed-depth ancestor walk) and carries a type marker; absence of either
marker or of the owning clause simply counts as false. -/
theorem c4_imports_only_types_is_or_of_markers (n : SpecifierNode) :
    n.imports_only_types = true ↔
      ((∃ t, n.specifier.type_token = some t)
        ∨ ∃ c t, n.import_clause = some c ∧ c.type_token = some t) := by
  unfold SpecifierNode.imports_only_types
  cases hc : n.import_clause with
  | none =>
    cases ht : n.specifier.type_token with
    | none => simp [ht, hc]
    | some t => simp [ht, hc]
  | some c =>
    cases ht : n.specifier.type_token with
    | none =>
      cases htc : c.type_token with
      | none => simp [ht, hc, htc]
      | some t => simp [ht, hc, htc]
    | some t => simp [ht, hc]

/-- C5: the owning-clause lookup is a fixed-depth walk: it inspects exactly
the third strict ancestor (index 2 of the strict-ancestor chain, i.e.
ancestors().nth(3) with self counted first), succeeds exactly when that node
is an import clause, returns absence when the chain is shorter than 3 or the
node does not cast, and depends on nothing but that single ancestor. -/
theorem c5_import_clause_fixed_depth_walk (n : SpecifierNode) :
    (∀ c, n.import_clause = some c ↔
      n.ancestors.get? 2 = some (AncestorNode.importClause c))
    ∧ (n.ancestors.length < 3 → n.import_clause = none)
    ∧ (∀ a, n.ancestors.get? 2 = some a → a.cast_import_clause = none →
        n.import_clause = none)
    ∧ (∀ m : SpecifierNode, m.ancestors.get? 2 = n.ancestors.get? 2 →
        m.import_clause = n.import_clause) := by
  refine ⟨?_, ?_, ?_, ?_⟩
  · intro c
    unfold SpecifierNode.import_clause
    cases h : n.ancestors.get? 2 with
    | none => simp
    | some a =>
      cases a <;> simp [AncestorNode.cast_import_clause]
  · intro h
    have h2 : n.ancestors.get? 2 = none := by
      rw [List.get?_eq_none]
      omega
    unfold SpecifierNode.import_clause
    rw [h2]
    rfl
  · intro a ha hcast
    unfold SpecifierNode.import_clause
    rw [ha]
    exact hcast
  · intro m h
    unfold SpecifierNode.import_clause
    rw [h]

/-- C6: the two failure channels of static source resolution: a missing
clause or missing source slot is the tree-access error MissingRequiredChild;
a metavariable placeholder in the source slot is the dedicated
UnexpectedMetavariable error, for both source_text and the clause-level
source accessor; and a present concrete string-literal source never fails on
content shape: for any token whatsoever the result is ok. -/
theorem c6_source_error_channels :
    (∀ i : JsImport, i.import_clause? = none →
      i.source_text = Except.error SyntaxError.MissingRequiredChild
      ∧ i.source_token = Except.error SyntaxError.MissingRequiredChild)
    ∧ (∀ (i : JsImport) (c : AnyJsImportClause), i.import_clause? = some c →
      c.source_slot = none →
      i.source_text = Except.error SyntaxError.MissingRequiredChild
      ∧ c.source = Except.error SyntaxError.MissingRequiredChild)
    ∧ (∀ (i : JsImport) (c : AnyJsImportClause) (m : JsMetavariable),
      i.import_clause? = some c →
      c.source_slot = some (AnyJsModuleSource.JsMetavariable m) →
      i.source_text = Except.error SyntaxError.UnexpectedMetavariable
      ∧ c.source = Except.error SyntaxError.UnexpectedMetavariable)
    ∧ (∀ (i : JsImport) (c : AnyJsImportClause) (tok : JsSyntaxToken),
      i.import_clause? = some c →
      c.source_slot = some (AnyJsModuleSource.JsModuleSource ⟨some tok⟩) →
      i.source_text = Except.ok (inner_string_text tok)
      ∧ c.source = Except.ok ⟨some tok⟩) := by
  refine ⟨?_, ?_, ?_, ?_⟩
  · intro i h
    unfold JsImport.source_text JsImport.source_token JsImport.import_clause
    rw [h]
    exact ⟨rfl, rfl⟩
  · intro i c hi hs
    have hsrc : c.source = Except.error SyntaxError.MissingRequiredChild := by
      unfold AnyJsImportClause.source
      rw [hs]
      rfl
    refine ⟨?_, hsrc⟩
    unfold JsImport.source_text JsImport.import_clause
    rw [hi]
    show (c.source.bind fun src => src.inner_string_text) = _
    rw [hsrc]
    rfl
  · intro i c m hi hs
    have hsrc : c.source = Except.error SyntaxError.UnexpectedMetavariable := by
      unfold AnyJsImportClause.source
      rw [hs]
      rfl
    refine ⟨?_, hsrc⟩
    unfold JsImport.source_text JsImport.import_clause
    rw [hi]
    show (c.source.bind fun src => src.inner_string_text) = _
    rw [hsrc]
    rfl
  · intro i c tok hi hs
    have hsrc : c.source = Except.ok ⟨some tok⟩ := by
      unfold AnyJsImportClause.source
      rw [hs]
      rfl
    refine ⟨?_, hsrc⟩
    unfold JsImport.source_text JsImport.import_clause
    rw [hi]
    show (c.source.bind fun src => src.inner_string_text) = _
    rw [hsrc]
    rfl

/-- C7: the assertion accessor dispatches to each clause variant's own
optional assertion slot — for all five variants the result is exactly the
variant's own slot, and in particular a bare or combined clause has an
assertion exactly when its own slot carries one. -/
theorem c7_assertion_dispatches_to_own_slot
    (b : JsImportBareClause) (d : JsImportDefaultClause) (nc : JsImportNamedClause)
    (ns : JsImportNamespaceClause) (cb : JsImportCombinedClause) :
    (AnyJsImportClause.JsImportBareClause b).assertion = b.assertion?
    ∧ (AnyJsImportClause.JsImportDefaultClause d).assertion = d.assertion?
    ∧ (AnyJsImportClause.JsImportNamedClause nc).assertion = nc.assertion?
    ∧ (AnyJsImportClause.JsImportNamespaceClause ns).assertion = ns.assertion?
    ∧ (AnyJsImportClause.JsImportCombinedClause cb).assertion = cb.assertion?
    ∧ ((AnyJsImportClause.JsImportBareClause b).assertion.isSome ↔ b.assertion?.isSome)
    ∧ ((AnyJsImportClause.JsImportCombinedClause cb).assertion.isSome ↔ cb.assertion?.isSome) :=
  ⟨rfl, rfl, rfl, rfl, rfl, Iff.rfl, Iff.rfl⟩

/-- C8: the ambient-module predicate holds exactly when the value is the
module-source variant and the immediate parent node's kind is
TS_EXTERNAL_MODULE_DECLARATION; it is false for both call variants and for a
module source with any other or absent parent, and it depends on nothing
beyond the value and the immediate parent. -/
theorem c8_is_in_ts_module_declaration_characterization (n : ImportSourceLikeNode) :
    (n.is_in_ts_module_declaration = true ↔
      (∃ s, n.value = AnyJsImportSourceLike.JsModuleSource s)
      ∧ ∃ p, n.ancestors.head? = some p
          ∧ p.kind = JsSyntaxKind.TS_EXTERNAL_MODULE_DECLARATION)
    ∧ ∀ m : ImportSourceLikeNode, m.value = n.value →
        m.ancestors.head? = n.ancestors.head? →
        m.is_in_ts_module_declaration = n.is_in_ts_module_declaration := by
  constructor
  · unfold ImportSourceLikeNode.is_in_ts_module_declaration
    cases hv : n.value with
    | JsModuleSource s =>
      cases hp : n.ancestors.head? with
      | none => simp [Option.map_none]
      | some p => simp [beq_iff_eq]
    | JsCallExpression e =>
      cases hp : n.ancestors.head? with
      | none => simp
      | some p => simp
    | JsImportCallExpression e =>
      cases hp : n.ancestors.head? with
      | none => simp
      | some p => simp
  · intro m hv hp
    unfold ImportSourceLikeNode.is_in_ts_module_declaration
    rw [hv, hp]

/-- C9: with_type_token is a pure copy-with-replaced-marker transform: on the
Named and Shorthand variants the returned specifier's marker slot is exactly
the supplied marker (in particular with none the new marker is absent), the
Bogus variant is returned unchanged, and the original specifier value still
reports its previous marker after the update. -/
theorem c9_with_type_token_pure_update
    (sn : JsNamedImportSpecifier) (ss : JsShorthandNamedImportSpecifier)
    (bg : JsBogusNamedImportSpecifier) (t : Option JsSyntaxToken) :
    ((AnyJsNamedImportSpecifier.JsNamedImportSpecifier sn).with_type_token t).type_token = t
    ∧ ((AnyJsNamedImportSpecifier.JsShorthandNamedImportSpecifier ss).with_type_token t).type_token
        = t
    ∧ (AnyJsNamedImportSpecifier.JsBogusNamedImportSpecifier bg).with_type_token t
        = AnyJsNamedImportSpecifier.JsBogusNamedImportSpecifier bg
    ∧ ∀ tok, sn.type_token? = some tok →
        (((AnyJsNamedImportSpecifier.JsNamedImportSpecifier sn).with_type_token none).type_token
            = none
          ∧ (AnyJsNamedImportSpecifier.JsNamedImportSpecifier sn).type_token = some tok) :=
  ⟨rfl, rfl, rfl, fun _ h => ⟨rfl, h⟩⟩

/-- C10: on every variant of the unified import-source handle, the text query
and the raw-token query traverse the same resolution chain and succeed
together: one returns some exactly when the other does. -/
theorem c10_module_source_text_defined_iff_token (v : AnyJsImportSourceLike) :
    (v.module_source_text).isSome = (v.module_name_token).isSome := by
  have hstr : ∀ s : JsStringLiteralExpression,
      ((s.inner_string_text).toOption).isSome = ((s.value_token).toOption).isSome := by
    intro s
    obtain ⟨vt?⟩ := s
    cases vt? <;> rfl
  cases v with
  | JsModuleSource s =>
    obtain ⟨vt?⟩ := s
    cases vt? <;> rfl
  | JsCallExpression e =>
    show (e.imported_module_source_text).isSome = (e.imported_module_source_token).isSome
    unfold JsCallExpression.imported_module_source_text
      JsCallExpression.imported_module_source_token
    split
    · show (((e.arguments).toOption).bind fun args =>
          (argument_zero_string_literal args).bind fun strLit =>
            (strLit.inner_string_text).toOption).isSome = _
      refine isSome_bind_congr _ _ _ fun args => ?_
      exact isSome_bind_congr _ _ _ fun strLit => hstr strLit
    · rfl
  | JsImportCallExpression e =>
    show (e.module_source_text).isSome = (e.module_source_token).isSome
    unfold JsImportCallExpression.module_source_text JsImportCallExpression.module_source_token
    refine isSome_bind_congr _ _ _ fun args => ?_
    exact isSome_bind_congr _ _ _ fun strLit => hstr strLit

/-! ## Witnesses -/

/-- Witness for C3: a dynamic import call whose sole argument is a spread (a
shape mismatch at index 0) yields absence. -/
theorem c3_extraction_consults_only_argument_zero_witness :
    (JsImportCallExpression.mk (some ⟨[AnyJsCallArgument.JsSpread]⟩)).module_source_text
      = none :=
  (c3_extraction_consults_only_argument_zero.2.2.1 AnyJsCallArgument.JsSpread [] rfl).1

/-- Witness for C5: a specifier whose third strict ancestor exists but is not
an import clause gets no owning clause. -/
theorem c5_import_clause_fixed_depth_walk_witness :
    (SpecifierNode.mk
      (AnyJsNamedImportSpecifier.JsBogusNamedImportSpecifier ⟨""⟩)
      [AncestorNode.namedImportSpecifierList, AncestorNode.namedImportSpecifiers,
        AncestorNode.jsImportNode]).import_clause = none :=
  (c5_import_clause_fixed_depth_walk _).2.2.1 AncestorNode.jsImportNode rfl rfl

/-- Witness for C6: a bare import clause whose source slot holds a
metavariable placeholder fails with the dedicated error. -/
theorem c6_source_error_channels_witness :
    (JsImport.mk (some (AnyJsImportClause.JsImportBareClause
        ⟨some (AnyJsModuleSource.JsMetavariable ⟨none⟩), none⟩))).source_text
      = Except.error SyntaxError.UnexpectedMetavariable :=
  (c6_source_error_channels.2.2.1
    (JsImport.mk (some (AnyJsImportClause.JsImportBareClause
      ⟨some (AnyJsModuleSource.JsMetavariable ⟨none⟩), none⟩)))
    (AnyJsImportClause.JsImportBareClause
      ⟨some (AnyJsModuleSource.JsMetavariable ⟨none⟩), none⟩)
    ⟨none⟩ rfl rfl).1

/-- Witness for C8: a module source whose immediate parent is a TS external
module declaration is recognized. -/
theorem c8_is_in_ts_module_declaration_characterization_witness :
    (ImportSourceLikeNode.mk (AnyJsImportSourceLike.JsModuleSource ⟨none⟩)
      [AncestorNode.tsExternalModuleDeclaration]).is_in_ts_module_declaration = true :=
  ((c8_is_in_ts_module_declaration_characterization
      (ImportSourceLikeNode.mk (AnyJsImportSourceLike.JsModuleSource ⟨none⟩)
        [AncestorNode.tsExternalModuleDeclaration])).1).mpr
    ⟨⟨⟨none⟩, rfl⟩, AncestorNode.tsExternalModuleDeclaration, rfl, rfl⟩

/-- Witness for C9: replacing a present marker with none clears the new
specifier's marker while the original value still reports it. -/
theorem c9_with_type_token_pure_update_witness :
    ((AnyJsNamedImportSpecifier.JsNamedImportSpecifier
        ⟨some ⟨"", "type", " "⟩, none, none⟩).with_type_token none).type_token = none
    ∧ (AnyJsNamedImportSpecifier.JsNamedImportSpecifier
        ⟨some ⟨"", "type", " "⟩, none, none⟩).type_token = some ⟨"", "type", " "⟩ :=
  (c9_with_type_token_pure_update ⟨some ⟨"", "type", " "⟩, none, none⟩ ⟨none, none⟩ ⟨""⟩
    none).2.2.2 ⟨"", "type", " "⟩ rfl
